import Mathlib

/-!
Verification of the order-management CRUD service (FastAPI + SQLModel, sync
and async route sets) against its specification.

The relational store is modelled as explicit state: one Lean list per table
plus one surrogate-key counter per table (modelling the store's sequences).
Each HTTP handler from `app/sync_main.py` and `app/async_main.py` becomes a
Lean function threading the store state; the handler's `try/except` boundary
is modelled with `Except`, and store-level failures are injected through an
explicit fault parameter (the code itself never fails on the modelled paths,
so every modelled error originates in an injected fault, exactly as a store
fault would surface through the session).  Python `int` is modelled as `Int`
and `float` prices as `ℚ` (every concrete value appearing in the spec is a
small dyadic rational, exactly representable in both).
-/

/-- Input payload for a contact (`Contact` in `app/models.py`). -/
structure Contact where
  name : String
  email : String
deriving Repr, DecidableEq

/-- Persisted contact row (`ContactDB`): payload plus surrogate key. -/
structure ContactDB where
  id : Int
  name : String
  email : String
deriving Repr, DecidableEq

/-- Input payload for a product (`Product` in `app/models.py`). -/
structure Product where
  name : String
deriving Repr, DecidableEq

/-- Persisted product row (`ProductDB`). -/
structure ProductDB where
  id : Int
  name : String
deriving Repr, DecidableEq

/-- Input payload for a tag (`Tag` in `app/models.py`); also the shape in
which tags appear inside `OrderRead` (name only). -/
structure Tag where
  name : String
deriving Repr, DecidableEq

/-- Persisted tag row (`TagDB`). -/
structure TagDB where
  id : Int
  name : String
deriving Repr, DecidableEq

/-- Persisted order/tag join row (`OrderTagRelDB`): pure join table. -/
structure OrderTagRelDB where
  id : Int
  order_id : Int
  tag_id : Int
deriving Repr, DecidableEq

/-- Persisted order row (`OrderDB`): the `order` table has exactly the
columns `id`, `name`, `contact_id`; lines and tags are relationships, not
columns. -/
structure OrderDB where
  id : Int
  name : String
  contact_id : Int
deriving Repr, DecidableEq

/-- Persisted order-line row (`OrderLineDB`). -/
structure OrderLineDB where
  id : Int
  order_id : Int
  product_id : Int
  quantity : Int
  price : ℚ
deriving Repr, DecidableEq

/-- One line item of an order-create payload (`OrderLineCreate`). -/
structure OrderLineCreate where
  product_id : Int
  quantity : Int
  price : ℚ
deriving Repr, DecidableEq

/-- One line item of an order read representation (`OrderLineRead`):
exactly the three fields `product_id`, `quantity`, `price`. -/
structure OrderLineRead where
  product_id : Int
  quantity : Int
  price : ℚ
deriving Repr, DecidableEq

/-- Order-create payload (`OrderCreate`). -/
structure OrderCreate where
  name : String
  contact_id : Int
  order_lines : List OrderLineCreate
  tag_ids : List Int
deriving Repr, DecidableEq

/-- Order read representation (`OrderRead` in `app/models.py`), as produced
by the GET /order routes through `response_model=List[OrderRead]`. -/
structure OrderRead where
  id : Int
  name : String
  contact_id : Int
  order_lines : List OrderLineRead
  tags : List Tag
deriving Repr, DecidableEq

/-- Computed field `OrderRead.amount_total`: `round(Σ price*quantity, 2)`,
derived on access, never a stored column. -/
def OrderRead.amount_total (r : OrderRead) : ℚ :=
  (round ((r.order_lines.map (fun line => line.price * (line.quantity : ℚ))).sum * 100) : ℚ) / 100

/-- The `fastapi.HTTPException` raised at each handler's except boundary. -/
structure HTTPException where
  status_code : Nat
  detail : String
deriving Repr, DecidableEq

/-- The relational store: one list per table (list order = insertion order)
plus the surrogate-key sequence of each table. -/
structure Store where
  contact : List ContactDB
  product : List ProductDB
  tag : List TagDB
  order : List OrderDB
  order_line : List OrderLineDB
  order_tag_rel : List OrderTagRelDB
  nextContactId : Int
  nextProductId : Int
  nextTagId : Int
  nextOrderId : Int
  nextOrderLineId : Int
  nextOrderTagRelId : Int
deriving Repr, DecidableEq

/-- Store well-formedness: every persisted order id, and every order id
referenced by a line or a tag link, is below the order sequence's next
value (true of every store reachable through the API from an empty store;
it is what makes freshly generated order ids collision-free). -/
def Store.WF (db : Store) : Prop :=
  (∀ o ∈ db.order, o.id < db.nextOrderId) ∧
  (∀ l ∈ db.order_line, l.order_id < db.nextOrderId) ∧
  (∀ k ∈ db.order_tag_rel, k.order_id < db.nextOrderId)

instance (db : Store) : Decidable db.WF := by
  unfold Store.WF; infer_instance

/-- An injected store fault for the order-create transaction, carrying the
underlying failure message: the order INSERT (at flush), the i-th line
INSERT, the i-th tag-link INSERT, or the COMMIT itself. -/
inductive CreateOrderFault where
  | order_insert (msg : String)
  | line_insert (i : Nat) (msg : String)
  | link_insert (i : Nat) (msg : String)
  | commit_fail (msg : String)
deriving Repr, DecidableEq

/-- The underlying failure message carried by a fault. -/
def CreateOrderFault.msg : CreateOrderFault → String
  | .order_insert m => m
  | .line_insert _ m => m
  | .link_insert _ m => m
  | .commit_fail m => m

/-- Whether a tag id resolves to a row, as `session.get(TagDB, tag_id)`. -/
def Store.tagById (db : Store) (t : Int) : Option TagDB :=
  db.tag.find? (fun tg => tg.id == t)

/-- Whether an injected fault actually fires on this request: a line fault
fires only if that line is inserted, a link fault only if that link is
attempted (i.e. its tag id resolved). -/
def CreateOrderFault.fires (f : CreateOrderFault) (db : Store) (order : OrderCreate) : Bool :=
  match f with
  | .order_insert _ => true
  | .line_insert i _ => i < order.order_lines.length
  | .link_insert i _ => i < (order.tag_ids.filter (fun t => (db.tagById t).isSome)).length
  | .commit_fail _ => true

namespace Sync

/-- POST /sync/contact (`create_contact` in `app/sync_main.py`): insert the
row, commit; on failure report HTTP 500 with the underlying message. -/
def create_contact (fault : Option String) (db : Store) (contact : Contact) :
    Except HTTPException ContactDB × Store :=
  match fault with
  | some m => (Except.error ⟨500, m⟩, db)
  | none =>
    let contact_db : ContactDB := ⟨db.nextContactId, contact.name, contact.email⟩
    (Except.ok contact_db,
      { db with contact := db.contact ++ [contact_db],
                nextContactId := db.nextContactId + 1 })

/-- GET /sync/contact (`get_contacts`): select all rows. -/
def get_contacts (db : Store) : List ContactDB × Store :=
  (db.contact, db)

/-- POST /sync/product (`create_product`). -/
def create_product (fault : Option String) (db : Store) (product : Product) :
    Except HTTPException ProductDB × Store :=
  match fault with
  | some m => (Except.error ⟨500, m⟩, db)
  | none =>
    let product_db : ProductDB := ⟨db.nextProductId, product.name⟩
    (Except.ok product_db,
      { db with product := db.product ++ [product_db],
                nextProductId := db.nextProductId + 1 })

/-- GET /sync/product (`get_products`). -/
def get_products (db : Store) : List ProductDB × Store :=
  (db.product, db)

/-- POST /sync/tag (`create_order_tag`). -/
def create_order_tag (fault : Option String) (db : Store) (tag : Tag) :
    Except HTTPException TagDB × Store :=
  match fault with
  | some m => (Except.error ⟨500, m⟩, db)
  | none =>
    let tag_db : TagDB := ⟨db.nextTagId, tag.name⟩
    (Except.ok tag_db,
      { db with tag := db.tag ++ [tag_db],
                nextTagId := db.nextTagId + 1 })

/-- GET /sync/tag (`get_tags`). -/
def get_tags (db : Store) : List TagDB × Store :=
  (db.tag, db)

/-- POST /sync/order (`create_order` in `app/sync_main.py`): add the order
row and flush (assigning its id), add one line per input line in input
order, add one tag link per input tag id that resolves (skipping the rest
silently), commit everything at once, refresh the order object (reloading
its column attributes), and return it.  The route declares no
`response_model`, and SQLModel `Relationship()` attributes are not model
fields, so the response carries only the bare order row `id`, `name`,
`contact_id` — never the line or tag collections.  If any step fails, the
except boundary reports HTTP 500 with the underlying message and the
session closes without committing, so the store is unchanged. -/
def create_order (fault : Option CreateOrderFault) (db : Store) (order : OrderCreate) :
    Except HTTPException OrderDB × Store :=
  let failed : Option String :=
    match fault with
    | some f => if f.fires db order then some f.msg else none
    | none => none
  match failed with
  | some m => (Except.error ⟨500, m⟩, db)
  | none =>
    let oid := db.nextOrderId
    let order_db : OrderDB := ⟨oid, order.name, order.contact_id⟩
    let new_lines := order.order_lines.enum.map (fun p =>
      OrderLineDB.mk (db.nextOrderLineId + (p.1 : Int)) oid p.2.product_id p.2.quantity p.2.price)
    let kept_tag_ids := order.tag_ids.filter (fun t => (db.tagById t).isSome)
    let new_links := kept_tag_ids.enum.map (fun p =>
      OrderTagRelDB.mk (db.nextOrderTagRelId + (p.1 : Int)) oid p.2)
    let db' : Store :=
      { db with order := db.order ++ [order_db],
                order_line := db.order_line ++ new_lines,
                order_tag_rel := db.order_tag_rel ++ new_links,
                nextOrderId := oid + 1,
                nextOrderLineId := db.nextOrderLineId + (new_lines.length : Int),
                nextOrderTagRelId := db.nextOrderTagRelId + (new_links.length : Int) }
    (Except.ok order_db, db')

/-- GET /sync/order (`get_orders`): select all orders; relationship access
lazily loads each order's lines and tags; `response_model=List[OrderRead]`
projects lines to `OrderLineRead` and tags to `Tag`. -/
def get_orders (db : Store) : List OrderRead × Store :=
  (db.order.map (fun o =>
    { id := o.id, name := o.name, contact_id := o.contact_id,
      order_lines := (db.order_line.filter (fun l => l.order_id == o.id)).map
        (fun l => OrderLineRead.mk l.product_id l.quantity l.price),
      tags := ((db.order_tag_rel.filter (fun k => k.order_id == o.id)).filterMap
        (fun k => db.tagById k.tag_id)).map (fun tg => Tag.mk tg.name) }), db)

end Sync

namespace Async

/-- POST /async/contact (`create_contact` in `app/async_main.py`). -/
def create_contact (fault : Option String) (db : Store) (contact : Contact) :
    Except HTTPException ContactDB × Store :=
  match fault with
  | some m => (Except.error ⟨500, m⟩, db)
  | none =>
    let contact_db : ContactDB := ⟨db.nextContactId, contact.name, contact.email⟩
    (Except.ok contact_db,
      { db with contact := db.contact ++ [contact_db],
                nextContactId := db.nextContactId + 1 })

/-- GET /async/contact (`get_contacts`). -/
def get_contacts (db : Store) : List ContactDB × Store :=
  (db.contact, db)

/-- POST /async/product (`create_product`). -/
def create_product (fault : Option String) (db : Store) (product : Product) :
    Except HTTPException ProductDB × Store :=
  match fault with
  | some m => (Except.error ⟨500, m⟩, db)
  | none =>
    let product_db : ProductDB := ⟨db.nextProductId, product.name⟩
    (Except.ok product_db,
      { db with product := db.product ++ [product_db],
                nextProductId := db.nextProductId + 1 })

/-- GET /async/product (`get_products`). -/
def get_products (db : Store) : List ProductDB × Store :=
  (db.product, db)

/-- POST /async/tag (`create_order_tag`). -/
def create_order_tag (fault : Option String) (db : Store) (tag : Tag) :
    Except HTTPException TagDB × Store :=
  match fault with
  | some m => (Except.error ⟨500, m⟩, db)
  | none =>
    let tag_db : TagDB := ⟨db.nextTagId, tag.name⟩
    (Except.ok tag_db,
      { db with tag := db.tag ++ [tag_db],
                nextTagId := db.nextTagId + 1 })

/-- GET /async/tag (`get_tags`). -/
def get_tags (db : Store) : List TagDB × Store :=
  (db.tag, db)

/-- POST /async/order (`create_order` in `app/async_main.py`): identical
algorithm to the sync variant, awaiting each session operation.  As in the
sync variant the response is the bare order row (no `response_model`,
relationship attributes not serialized); here the relationship collections
could not even be lazy-loaded after the awaited refresh. -/
def create_order (fault : Option CreateOrderFault) (db : Store) (order : OrderCreate) :
    Except HTTPException OrderDB × Store :=
  let failed : Option String :=
    match fault with
    | some f => if f.fires db order then some f.msg else none
    | none => none
  match failed with
  | some m => (Except.error ⟨500, m⟩, db)
  | none =>
    let oid := db.nextOrderId
    let order_db : OrderDB := ⟨oid, order.name, order.contact_id⟩
    let new_lines := order.order_lines.enum.map (fun p =>
      OrderLineDB.mk (db.nextOrderLineId + (p.1 : Int)) oid p.2.product_id p.2.quantity p.2.price)
    let kept_tag_ids := order.tag_ids.filter (fun t => (db.tagById t).isSome)
    let new_links := kept_tag_ids.enum.map (fun p =>
      OrderTagRelDB.mk (db.nextOrderTagRelId + (p.1 : Int)) oid p.2)
    let db' : Store :=
      { db with order := db.order ++ [order_db],
                order_line := db.order_line ++ new_lines,
                order_tag_rel := db.order_tag_rel ++ new_links,
                nextOrderId := oid + 1,
                nextOrderLineId := db.nextOrderLineId + (new_lines.length : Int),
                nextOrderTagRelId := db.nextOrderTagRelId + (new_links.length : Int) }
    (Except.ok order_db, db')

/-- GET /async/order (`get_orders`): selects all orders with
`selectinload(OrderDB.order_lines)` and `selectinload(OrderDB.tags)` —
one batched secondary query per relationship over the selected order ids —
then projects through `OrderRead` exactly as the sync variant. -/
def get_orders (db : Store) : List OrderRead × Store :=
  let ids := db.order.map (fun o => o.id)
  let loaded_lines := db.order_line.filter (fun l => ids.contains l.order_id)
  let loaded_rels := db.order_tag_rel.filter (fun k => ids.contains k.order_id)
  (db.order.map (fun o =>
    { id := o.id, name := o.name, contact_id := o.contact_id,
      order_lines := (loaded_lines.filter (fun l => l.order_id == o.id)).map
        (fun l => OrderLineRead.mk l.product_id l.quantity l.price),
      tags := ((loaded_rels.filter (fun k => k.order_id == o.id)).filterMap
        (fun k => db.tagById k.tag_id)).map (fun tg => Tag.mk tg.name) }), db)

end Async

/-! ## Helper lemmas -/

/-- Re-filtering a batch-loaded table by one of the batched keys gives the
same rows as filtering the full table by that key. -/
theorem filter_batched {α : Type} (rows : List α) (key : α → Int) (ids : List Int)
    (i : Int) (hi : i ∈ ids) :
    (rows.filter (fun r => ids.contains (key r))).filter (fun r => key r == i)
      = rows.filter (fun r => key r == i) := by
  rw [List.filter_filter]
  refine List.filter_congr ?_
  intro a _
  by_cases h : key a = i
  · simp only [h, beq_self_eq_true, Bool.true_and]
    exact List.elem_eq_true_of_mem hi
  · simp [h]

/-- Mapping over an enumerated list with a function that only looks at the
element is mapping over the list itself. -/
theorem enum_map_comp_snd {α β : Type} (l : List α) (g : Nat × α → β) (g' : α → β)
    (hg : ∀ p : Nat × α, g p = g' p.2) : l.enum.map g = l.map g' := by
  have h : g = g' ∘ Prod.snd := funext hg
  rw [h, ← List.map_map, List.enum_map_snd]

/-- Filter-mapping an enumerated list with a function that only looks at the
element is filter-mapping the list itself. -/
theorem enum_filterMap_comp_snd {α β : Type} (l : List α) (g : Nat × α → Option β)
    (g' : α → Option β) (hg : ∀ p : Nat × α, g p = g' p.2) :
    l.enum.filterMap g = l.filterMap g' := by
  have h : g = g' ∘ Prod.snd := funext hg
  rw [h, ← List.filterMap_map, List.enum_map_snd]

/-- Filtering the post-commit line table by the fresh order id returns
exactly the newly inserted lines (pre-existing lines reference older ids). -/
theorem filter_new_lines (db : Store) (inp : OrderCreate)
    (h : ∀ l ∈ db.order_line, l.order_id < db.nextOrderId) :
    (db.order_line ++ inp.order_lines.enum.map (fun p =>
        OrderLineDB.mk (db.nextOrderLineId + (p.1 : Int)) db.nextOrderId
          p.2.product_id p.2.quantity p.2.price)).filter
      (fun l => l.order_id == db.nextOrderId)
    = inp.order_lines.enum.map (fun p =>
        OrderLineDB.mk (db.nextOrderLineId + (p.1 : Int)) db.nextOrderId
          p.2.product_id p.2.quantity p.2.price) := by
  rw [List.filter_append, List.filter_eq_nil_iff.mpr, List.nil_append,
    List.filter_eq_self.mpr]
  · intro a ha
    obtain ⟨p, _, rfl⟩ := List.mem_map.1 ha
    simp
  · intro a ha
    simp only [beq_iff_eq]
    exact fun hc => absurd hc (Int.ne_of_lt (h a ha))

/-- Filtering the post-commit tag-link table by the fresh order id returns
exactly the newly inserted links. -/
theorem filter_new_links (db : Store) (ts : List Int)
    (h : ∀ k ∈ db.order_tag_rel, k.order_id < db.nextOrderId) :
    (db.order_tag_rel ++ ts.enum.map (fun p =>
        OrderTagRelDB.mk (db.nextOrderTagRelId + (p.1 : Int)) db.nextOrderId p.2)).filter
      (fun k => k.order_id == db.nextOrderId)
    = ts.enum.map (fun p =>
        OrderTagRelDB.mk (db.nextOrderTagRelId + (p.1 : Int)) db.nextOrderId p.2) := by
  rw [List.filter_append, List.filter_eq_nil_iff.mpr, List.nil_append,
    List.filter_eq_self.mpr]
  · intro a ha
    obtain ⟨p, _, rfl⟩ := List.mem_map.1 ha
    simp
  · intro a ha
    simp only [beq_iff_eq]
    exact fun hc => absurd hc (Int.ne_of_lt (h a ha))

/-- Resolving a list of tag ids that all resolve, then reading back the ids,
is the identity. -/
theorem filterMap_tagById_map_id (db : Store) :
    ∀ ts : List Int, (∀ t ∈ ts, (db.tagById t).isSome) →
      ((ts.filterMap db.tagById).map fun tg => tg.id) = ts := by
  intro ts
  induction ts with
  | nil => intro; rfl
  | cons t ts ih =>
    intro h
    obtain ⟨tg, htg⟩ := Option.isSome_iff_exists.1 (h t (List.mem_cons_self t ts))
    have hid : tg.id = t := by
      simpa [beq_iff_eq] using List.find?_some htg
    rw [List.filterMap_cons, htg]
    simp only [List.map_cons, hid]
    rw [ih (fun x hx => h x (List.mem_cons_of_mem t hx))]

/-- An injected fault that fires makes `create_order` report HTTP 500 with
the fault's message and leave the store untouched (sync variant). -/
theorem sync_create_order_fires (flt : CreateOrderFault) (db : Store) (inp : OrderCreate)
    (h : flt.fires db inp = true) :
    Sync.create_order (some flt) db inp = (Except.error ⟨500, flt.msg⟩, db) := by
  simp [Sync.create_order, h]

/-- An injected fault that does not fire is invisible (sync variant). -/
theorem sync_create_order_not_fires (flt : CreateOrderFault) (db : Store) (inp : OrderCreate)
    (h : ¬ flt.fires db inp = true) :
    Sync.create_order (some flt) db inp = Sync.create_order none db inp := by
  simp [Sync.create_order, h]

/-- An injected fault that fires makes `create_order` report HTTP 500 with
the fault's message and leave the store untouched (async variant). -/
theorem async_create_order_fires (flt : CreateOrderFault) (db : Store) (inp : OrderCreate)
    (h : flt.fires db inp = true) :
    Async.create_order (some flt) db inp = (Except.error ⟨500, flt.msg⟩, db) := by
  simp [Async.create_order, h]

/-- An injected fault that does not fire is invisible (async variant). -/
theorem async_create_order_not_fires (flt : CreateOrderFault) (db : Store) (inp : OrderCreate)
    (h : ¬ flt.fires db inp = true) :
    Async.create_order (some flt) db inp = Async.create_order none db inp := by
  simp [Async.create_order, h]

/-- The store grows only by appending rows: every pre-existing row of every
table survives unchanged, in place. -/
def Store.Extends (db db' : Store) : Prop :=
  (∃ a, db'.contact = db.contact ++ a) ∧
  (∃ a, db'.product = db.product ++ a) ∧
  (∃ a, db'.tag = db.tag ++ a) ∧
  (∃ a, db'.order = db.order ++ a) ∧
  (∃ a, db'.order_line = db.order_line ++ a) ∧
  (∃ a, db'.order_tag_rel = db.order_tag_rel ++ a)

/-- A store extends itself (nothing appended). -/
theorem store_extends_self (db : Store) : db.Extends db :=
  ⟨⟨[], (List.append_nil _).symm⟩, ⟨[], (List.append_nil _).symm⟩,
   ⟨[], (List.append_nil _).symm⟩, ⟨[], (List.append_nil _).symm⟩,
   ⟨[], (List.append_nil _).symm⟩, ⟨[], (List.append_nil _).symm⟩⟩

/-- C5.  For every operation (create/list of contact, product, tag, and
create/list of order), for every input, injected fault, and initial store,
the blocking (sync) route variant and the non-blocking (async) route
variant produce identical results and identical final stores. -/
theorem sync_async_equivalence :
    (∀ f db c, Sync.create_contact f db c = Async.create_contact f db c) ∧
    (∀ db, Sync.get_contacts db = Async.get_contacts db) ∧
    (∀ f db p, Sync.create_product f db p = Async.create_product f db p) ∧
    (∀ db, Sync.get_products db = Async.get_products db) ∧
    (∀ f db t, Sync.create_order_tag f db t = Async.create_order_tag f db t) ∧
    (∀ db, Sync.get_tags db = Async.get_tags db) ∧
    (∀ f db o, Sync.create_order f db o = Async.create_order f db o) ∧
    (∀ db, Sync.get_orders db = Async.get_orders db) := by
  refine ⟨fun _ _ _ => rfl, fun _ => rfl, fun _ _ _ => rfl, fun _ => rfl,
    fun _ _ _ => rfl, fun _ => rfl, fun _ _ _ => rfl, fun db => ?_⟩
  simp only [Sync.get_orders, Async.get_orders, Prod.mk.injEq, and_true]
  refine List.map_congr_left ?_
  intro o ho
  have h1 := filter_batched db.order_line (fun l => l.order_id)
    (db.order.map fun o => o.id) o.id (List.mem_map_of_mem (fun o => o.id) ho)
  have h2 := filter_batched db.order_tag_rel (fun k => k.order_id)
    (db.order.map fun o => o.id) o.id (List.mem_map_of_mem (fun o => o.id) ho)
  rw [h1, h2]

/-- C7.  No exposed operation updates or deletes an existing row: each
create operation (under any injected fault outcome) only appends rows, and
each list operation returns the store unchanged. -/
theorem exposed_operations_insert_only :
    (∀ f db c, Store.Extends db (Sync.create_contact f db c).2) ∧
    (∀ db, (Sync.get_contacts db).2 = db) ∧
    (∀ f db p, Store.Extends db (Sync.create_product f db p).2) ∧
    (∀ db, (Sync.get_products db).2 = db) ∧
    (∀ f db t, Store.Extends db (Sync.create_order_tag f db t).2) ∧
    (∀ db, (Sync.get_tags db).2 = db) ∧
    (∀ f db o, Store.Extends db (Sync.create_order f db o).2) ∧
    (∀ db, (Sync.get_orders db).2 = db) ∧
    (∀ f db c, Store.Extends db (Async.create_contact f db c).2) ∧
    (∀ db, (Async.get_contacts db).2 = db) ∧
    (∀ f db p, Store.Extends db (Async.create_product f db p).2) ∧
    (∀ db, (Async.get_products db).2 = db) ∧
    (∀ f db t, Store.Extends db (Async.create_order_tag f db t).2) ∧
    (∀ db, (Async.get_tags db).2 = db) ∧
    (∀ f db o, Store.Extends db (Async.create_order f db o).2) ∧
    (∀ db, (Async.get_orders db).2 = db) := by
  refine ⟨?_, fun _ => rfl, ?_, fun _ => rfl, ?_, fun _ => rfl, ?_, fun _ => rfl,
          ?_, fun _ => rfl, ?_, fun _ => rfl, ?_, fun _ => rfl, ?_, fun _ => rfl⟩
  all_goals intro f db x
  case _ =>
    cases f with
    | none => exact ⟨⟨_, rfl⟩, ⟨[], (List.append_nil _).symm⟩, ⟨[], (List.append_nil _).symm⟩,
        ⟨[], (List.append_nil _).symm⟩, ⟨[], (List.append_nil _).symm⟩, ⟨[], (List.append_nil _).symm⟩⟩
    | some m => exact store_extends_self db
  case _ =>
    cases f with
    | none => exact ⟨⟨[], (List.append_nil _).symm⟩, ⟨_, rfl⟩, ⟨[], (List.append_nil _).symm⟩,
        ⟨[], (List.append_nil _).symm⟩, ⟨[], (List.append_nil _).symm⟩, ⟨[], (List.append_nil _).symm⟩⟩
    | some m => exact store_extends_self db
  case _ =>
    cases f with
    | none => exact ⟨⟨[], (List.append_nil _).symm⟩, ⟨[], (List.append_nil _).symm⟩, ⟨_, rfl⟩,
        ⟨[], (List.append_nil _).symm⟩, ⟨[], (List.append_nil _).symm⟩, ⟨[], (List.append_nil _).symm⟩⟩
    | some m => exact store_extends_self db
  case _ =>
    cases f with
    | none => exact ⟨⟨[], (List.append_nil _).symm⟩, ⟨[], (List.append_nil _).symm⟩,
        ⟨[], (List.append_nil _).symm⟩, ⟨_, rfl⟩, ⟨_, rfl⟩, ⟨_, rfl⟩⟩
    | some flt =>
      by_cases h : flt.fires db x = true
      · rw [sync_create_order_fires flt db x h]
        exact store_extends_self db
      · rw [sync_create_order_not_fires flt db x h]
        exact ⟨⟨[], (List.append_nil _).symm⟩, ⟨[], (List.append_nil _).symm⟩,
          ⟨[], (List.append_nil _).symm⟩, ⟨_, rfl⟩, ⟨_, rfl⟩, ⟨_, rfl⟩⟩
  case _ =>
    cases f with
    | none => exact ⟨⟨_, rfl⟩, ⟨[], (List.append_nil _).symm⟩, ⟨[], (List.append_nil _).symm⟩,
        ⟨[], (List.append_nil _).symm⟩, ⟨[], (List.append_nil _).symm⟩, ⟨[], (List.append_nil _).symm⟩⟩
    | some m => exact store_extends_self db
  case _ =>
    cases f with
    | none => exact ⟨⟨[], (List.append_nil _).symm⟩, ⟨_, rfl⟩, ⟨[], (List.append_nil _).symm⟩,
        ⟨[], (List.append_nil _).symm⟩, ⟨[], (List.append_nil _).symm⟩, ⟨[], (List.append_nil _).symm⟩⟩
    | some m => exact store_extends_self db
  case _ =>
    cases f with
    | none => exact ⟨⟨[], (List.append_nil _).symm⟩, ⟨[], (List.append_nil _).symm⟩, ⟨_, rfl⟩,
        ⟨[], (List.append_nil _).symm⟩, ⟨[], (List.append_nil _).symm⟩, ⟨[], (List.append_nil _).symm⟩⟩
    | some m => exact store_extends_self db
  case _ =>
    cases f with
    | none => exact ⟨⟨[], (List.append_nil _).symm⟩, ⟨[], (List.append_nil _).symm⟩,
        ⟨[], (List.append_nil _).symm⟩, ⟨_, rfl⟩, ⟨_, rfl⟩, ⟨_, rfl⟩⟩
    | some flt =>
      by_cases h : flt.fires db x = true
      · rw [async_create_order_fires flt db x h]
        exact store_extends_self db
      · rw [async_create_order_not_fires flt db x h]
        exact ⟨⟨[], (List.append_nil _).symm⟩, ⟨[], (List.append_nil _).symm⟩,
          ⟨[], (List.append_nil _).symm⟩, ⟨_, rfl⟩, ⟨_, rfl⟩, ⟨_, rfl⟩⟩

/-- A freshly initialized store: all tables empty, all sequences at 1. -/
def Store.empty : Store :=
  ⟨[], [], [], [], [], [], 1, 1, 1, 1, 1, 1⟩

/-- Example order-create payload used to exercise the theorems. -/
def exOrderInput : OrderCreate :=
  { name := "x", contact_id := 1, order_lines := [], tag_ids := [] }

/-- C1.  If any step of `create_order` before the final commit fails (order
insert, any line insert, any tag-link insert, or the commit itself), no row
from the attempt is persisted — the store is returned unchanged — and the
operation reports HTTP 500 whose detail is the underlying failure message. -/
theorem create_order_rollback_on_error :
    ∀ (f : Option CreateOrderFault) (db : Store) (inp : OrderCreate)
      (e : HTTPException) (db' : Store),
      Sync.create_order f db inp = (Except.error e, db') →
      db' = db ∧ e.status_code = 500 ∧ ∃ flt, f = some flt ∧ e.detail = flt.msg := by
  intro f db inp e db' h
  cases f with
  | none => simp [Sync.create_order] at h
  | some flt =>
    by_cases hf : flt.fires db inp = true
    · rw [sync_create_order_fires flt db inp hf] at h
      obtain ⟨h1, h2⟩ := Prod.mk.injEq .. |>.mp h
      obtain rfl := (Except.error.injEq .. |>.mp h1).symm
      exact ⟨h2.symm, rfl, flt, rfl, rfl⟩
    · rw [sync_create_order_not_fires flt db inp hf] at h
      simp [Sync.create_order] at h

/-- Witness for C1: a commit fault on the empty store fires, the store
comes back unchanged, and the error is HTTP 500 carrying the message. -/
theorem create_order_rollback_on_error_witness :
    Sync.create_order (some (CreateOrderFault.commit_fail "boom")) Store.empty exOrderInput
        = (Except.error ⟨500, "boom"⟩, Store.empty) ∧
      (Store.empty = Store.empty ∧
        (HTTPException.mk 500 "boom").status_code = 500 ∧
        ∃ flt, (some (CreateOrderFault.commit_fail "boom") : Option CreateOrderFault) = some flt ∧
          (HTTPException.mk 500 "boom").detail = flt.msg) :=
  ⟨rfl, create_order_rollback_on_error
    (some (CreateOrderFault.commit_fail "boom")) Store.empty exOrderInput
    ⟨500, "boom"⟩ Store.empty rfl⟩

/-- C2.  Every order read representation's `amount_total` equals
`round(Σ price·quantity, 2)` over the lines currently attached to the order
in the store, and it is a function of the `order_lines` collection alone
(derived at read time, not a stored column). -/
theorem get_orders_amount_total_derived :
    ∀ (db : Store) (r : OrderRead), r ∈ (Sync.get_orders db).1 →
      r.amount_total =
        (round (((db.order_line.filter (fun l => l.order_id == r.id)).map
          (fun l => l.price * (l.quantity : ℚ))).sum * 100) : ℚ) / 100 ∧
      ∀ r' : OrderRead, r'.order_lines = r.order_lines →
        r'.amount_total = r.amount_total := by
  intro db r hr
  constructor
  · obtain ⟨o, ho, rfl⟩ := List.mem_map.1 hr
    simp only [OrderRead.amount_total, List.map_map]
    rfl
  · intro r' h
    simp only [OrderRead.amount_total, h]

/-- Store with one contact, one product, one order and one line, used as a
concrete read-path witness. -/
def exReadStore : Store :=
  { contact := [⟨1, "c", "e"⟩], product := [⟨1, "p"⟩], tag := [],
    order := [⟨1, "o", 1⟩], order_line := [⟨1, 1, 1, 2, 10⟩], order_tag_rel := [],
    nextContactId := 2, nextProductId := 2, nextTagId := 1,
    nextOrderId := 2, nextOrderLineId := 2, nextOrderTagRelId := 1 }

/-- The read representation that `exReadStore` yields for its one order. -/
def exOrderRead : OrderRead :=
  { id := 1, name := "o", contact_id := 1,
    order_lines := [⟨1, 2, 10⟩], tags := [] }

/-- Witness for C2: on `exReadStore`, the listed order's `amount_total` is
the rounded line sum, recomputed from its lines. -/
theorem get_orders_amount_total_derived_witness :
    exOrderRead ∈ (Sync.get_orders exReadStore).1 ∧
      (exOrderRead.amount_total =
        (round (((exReadStore.order_line.filter (fun l => l.order_id == exOrderRead.id)).map
          (fun l => l.price * (l.quantity : ℚ))).sum * 100) : ℚ) / 100 ∧
      ∀ r' : OrderRead, r'.order_lines = exOrderRead.order_lines →
        r'.amount_total = exOrderRead.amount_total) :=
  ⟨by decide, get_orders_amount_total_derived exReadStore exOrderRead (by decide)⟩

/-- C9.  In the order list read model every line is projected to exactly the
three fields `product_id`, `quantity`, `price`: each exposed line is the
three-field projection of a stored row of that order, and the projection is
unchanged under any reassignment of the row's `id` and `order_id` (those
two columns are never exposed). -/
theorem get_orders_line_projection :
    ∀ (db : Store) (r : OrderRead), r ∈ (Sync.get_orders db).1 →
      (∀ lr ∈ r.order_lines, ∃ l, l ∈ db.order_line ∧ l.order_id = r.id ∧
        lr = OrderLineRead.mk l.product_id l.quantity l.price) ∧
      (∀ (l : OrderLineDB) (a b : Int),
        OrderLineRead.mk ({ l with id := a, order_id := b } : OrderLineDB).product_id
            ({ l with id := a, order_id := b } : OrderLineDB).quantity
            ({ l with id := a, order_id := b } : OrderLineDB).price
          = OrderLineRead.mk l.product_id l.quantity l.price) := by
  intro db r hr
  obtain ⟨o, ho, rfl⟩ := List.mem_map.1 hr
  refine ⟨?_, fun l a b => rfl⟩
  intro lr hlr
  obtain ⟨l, hl, rfl⟩ := List.mem_map.1 hlr
  obtain ⟨hl1, hl2⟩ := List.mem_filter.1 hl
  exact ⟨l, hl1, by simpa [beq_iff_eq] using hl2, rfl⟩

/-- Witness for C9: the one exposed line of `exReadStore`'s order is the
three-field projection of the stored row. -/
theorem get_orders_line_projection_witness :
    exOrderRead ∈ (Sync.get_orders exReadStore).1 ∧
      ((∀ lr ∈ exOrderRead.order_lines, ∃ l, l ∈ exReadStore.order_line ∧
          l.order_id = exOrderRead.id ∧
          lr = OrderLineRead.mk l.product_id l.quantity l.price) ∧
        (∀ (l : OrderLineDB) (a b : Int),
          OrderLineRead.mk ({ l with id := a, order_id := b } : OrderLineDB).product_id
              ({ l with id := a, order_id := b } : OrderLineDB).quantity
              ({ l with id := a, order_id := b } : OrderLineDB).price
            = OrderLineRead.mk l.product_id l.quantity l.price)) :=
  ⟨by decide, get_orders_line_projection exReadStore exOrderRead (by decide)⟩

/-- Unfolding of the fault-free `create_order` transaction: the committed
store appends the order row, the enumerated line rows and the enumerated
tag-link rows (for the resolving tag ids), and the returned value is the
bare order row. -/
theorem sync_create_order_none_eq (db : Store) (inp : OrderCreate) :
    Sync.create_order none db inp =
      (Except.ok ⟨db.nextOrderId, inp.name, inp.contact_id⟩,
       { db with
          order := db.order ++ [⟨db.nextOrderId, inp.name, inp.contact_id⟩],
          order_line := db.order_line ++ inp.order_lines.enum.map (fun p =>
            OrderLineDB.mk (db.nextOrderLineId + (p.1 : Int)) db.nextOrderId
              p.2.product_id p.2.quantity p.2.price),
          order_tag_rel := db.order_tag_rel ++ (inp.tag_ids.filter (fun t => (db.tagById t).isSome)).enum.map
              (fun p => OrderTagRelDB.mk (db.nextOrderTagRelId + (p.1 : Int)) db.nextOrderId p.2),
          nextOrderId := db.nextOrderId + 1,
          nextOrderLineId := db.nextOrderLineId + ((inp.order_lines.enum.map (fun p =>
            OrderLineDB.mk (db.nextOrderLineId + (p.1 : Int)) db.nextOrderId
              p.2.product_id p.2.quantity p.2.price)).length : Int),
          nextOrderTagRelId := db.nextOrderTagRelId + (((inp.tag_ids.filter (fun t => (db.tagById t).isSome)).enum.map
              (fun p => OrderTagRelDB.mk (db.nextOrderTagRelId + (p.1 : Int)) db.nextOrderId p.2)).length : Int) }) :=
  rfl

/-- C4.  A fault-free `create_order` inserts exactly one `OrderLine` per
input line item, each referencing the generated order id (visible from the
flush), appended in input order; reading the committed store back by the
new order id yields exactly those lines, projecting to the input lines in
input order, with count equal to the input count. -/
theorem create_order_lines_in_input_order :
    ∀ (db : Store) (inp : OrderCreate), db.WF →
      ∃ o db', Sync.create_order none db inp = (Except.ok o, db') ∧
        o.id = db.nextOrderId ∧
        (∃ new, db'.order_line = db.order_line ++ new ∧
          new.length = inp.order_lines.length ∧
          (∀ l ∈ new, l.order_id = db.nextOrderId) ∧
          new.map (fun l => OrderLineRead.mk l.product_id l.quantity l.price)
            = inp.order_lines.map (fun l => OrderLineRead.mk l.product_id l.quantity l.price)) ∧
        (db'.order_line.filter (fun l => l.order_id == db.nextOrderId)).map
            (fun l => OrderLineRead.mk l.product_id l.quantity l.price)
          = inp.order_lines.map (fun l => OrderLineRead.mk l.product_id l.quantity l.price) ∧
        (db'.order_line.filter (fun l => l.order_id == db.nextOrderId)).length
          = inp.order_lines.length ∧
        db'.order_line.length = db.order_line.length + inp.order_lines.length := by
  intro db inp hwf
  obtain ⟨hwf1, hwf2, hwf3⟩ := hwf
  refine ⟨_, _, sync_create_order_none_eq db inp, rfl, ⟨_, rfl, ?_, ?_, ?_⟩, ?_, ?_, ?_⟩
  · rw [List.length_map, List.enum_length]
  · intro l hl
    obtain ⟨p, _, rfl⟩ := List.mem_map.1 hl
    rfl
  · rw [List.map_map]
    exact enum_map_comp_snd _ _ _ (fun p => rfl)
  · dsimp only
    rw [filter_new_lines db inp hwf2, List.map_map]
    exact enum_map_comp_snd _ _ _ (fun p => rfl)
  · dsimp only
    rw [filter_new_lines db inp hwf2, List.length_map, List.enum_length]
  · dsimp only
    rw [List.length_append, List.length_map, List.enum_length]

/-- C3.  A fault-free `create_order` links the new order to exactly the
requested tag ids that resolve to an existing `Tag` row: the link rows for
the new order carry precisely those ids (in request order), resolving those
links back against the tag table recovers precisely those ids, and
non-resolving ids add no link row and cause no error. -/
theorem create_order_tags_filtered :
    ∀ (db : Store) (inp : OrderCreate), db.WF →
      ∃ o db', Sync.create_order none db inp = (Except.ok o, db') ∧
        o.id = db.nextOrderId ∧
        (db'.order_tag_rel.filter (fun k => k.order_id == db.nextOrderId)).map (fun k => k.tag_id)
          = inp.tag_ids.filter (fun t => (db.tagById t).isSome) ∧
        ((db'.order_tag_rel.filter (fun k => k.order_id == db.nextOrderId)).filterMap
            (fun k => db'.tagById k.tag_id)).map (fun tg => tg.id)
          = inp.tag_ids.filter (fun t => (db.tagById t).isSome) ∧
        db'.order_tag_rel.length
          = db.order_tag_rel.length + (inp.tag_ids.filter (fun t => (db.tagById t).isSome)).length := by
  intro db inp hwf
  obtain ⟨hwf1, hwf2, hwf3⟩ := hwf
  refine ⟨_, _, sync_create_order_none_eq db inp, rfl, ?_, ?_, ?_⟩
  · dsimp only
    rw [filter_new_links db (inp.tag_ids.filter (fun t => (db.tagById t).isSome)) hwf3,
      List.map_map]
    exact (enum_map_comp_snd _ _ id (fun p => rfl)).trans (List.map_id _)
  · dsimp only
    rw [filter_new_links db (inp.tag_ids.filter (fun t => (db.tagById t).isSome)) hwf3,
      List.filterMap_map]
    exact (congrArg (List.map (fun tg => tg.id))
        (enum_filterMap_comp_snd _ _ db.tagById (fun p => rfl))).trans
      (filterMap_tagById_map_id db _ (fun t ht => (List.mem_filter.1 ht).2))
  · dsimp only
    rw [List.length_append, List.length_map, List.enum_length]

/-- C10.  If a resolving tag id appears k times in the request's `tag_ids`,
a fault-free `create_order` inserts k separate link rows for that
(order, tag) pair: duplicates are neither deduplicated nor rejected. -/
theorem create_order_duplicate_tag_links :
    ∀ (db : Store) (inp : OrderCreate) (t : Int), db.WF → (db.tagById t).isSome →
      ((Sync.create_order none db inp).2.order_tag_rel.filter
          (fun k => k.order_id == db.nextOrderId && k.tag_id == t)).length
        = inp.tag_ids.count t := by
  intro db inp t hwf hsome
  obtain ⟨hwf1, hwf2, hwf3⟩ := hwf
  rw [sync_create_order_none_eq db inp]
  dsimp only
  rw [List.filter_append]
  have hold : db.order_tag_rel.filter
      (fun k => k.order_id == db.nextOrderId && k.tag_id == t) = [] := by
    rw [List.filter_eq_nil_iff]
    intro k hk
    simp only [Bool.and_eq_true, beq_iff_eq, not_and]
    exact fun h1 _ => absurd h1 (Int.ne_of_lt (hwf3 k hk))
  rw [hold, List.nil_append, List.filter_map, List.length_map]
  have hpred : ((fun k : OrderTagRelDB => k.order_id == db.nextOrderId && k.tag_id == t) ∘
      (fun p : Nat × Int =>
        OrderTagRelDB.mk (db.nextOrderTagRelId + (p.1 : Int)) db.nextOrderId p.2))
      = (fun p : Nat × Int => p.2 == t) := by
    funext p
    simp
  rw [hpred, ← List.countP_eq_length_filter]
  have henum : List.countP (fun p : Nat × Int => p.2 == t)
      (inp.tag_ids.filter (fun x => (db.tagById x).isSome)).enum
      = List.countP (fun x : Int => x == t)
          (inp.tag_ids.filter (fun x => (db.tagById x).isSome)) := by
    conv_rhs => rw [← List.enum_map_snd (inp.tag_ids.filter (fun x => (db.tagById x).isSome))]
    rw [List.countP_map]
    rfl
  rw [henum]
  exact List.count_filter hsome

/-- Store with a contact, a product and one tag (id 1), used to exercise the
create-order theorems concretely. -/
def exTagStore : Store :=
  { contact := [⟨1, "c", "e"⟩], product := [⟨1, "p"⟩], tag := [⟨1, "t1"⟩],
    order := [], order_line := [], order_tag_rel := [],
    nextContactId := 2, nextProductId := 2, nextTagId := 2,
    nextOrderId := 1, nextOrderLineId := 1, nextOrderTagRelId := 1 }

/-- Order-create payload with one line and tag ids [1, 999, 1]: id 1 exists
(twice), id 999 does not. -/
def exTagInput : OrderCreate :=
  { name := "B", contact_id := 1, order_lines := [⟨1, 3, 7⟩], tag_ids := [1, 999, 1] }

/-- Witness for C4 on `exTagStore`/`exTagInput`. -/
theorem create_order_lines_in_input_order_witness :
    exTagStore.WF ∧
      (∃ o db', Sync.create_order none exTagStore exTagInput = (Except.ok o, db') ∧
        o.id = exTagStore.nextOrderId ∧
        (∃ new, db'.order_line = exTagStore.order_line ++ new ∧
          new.length = exTagInput.order_lines.length ∧
          (∀ l ∈ new, l.order_id = exTagStore.nextOrderId) ∧
          new.map (fun l => OrderLineRead.mk l.product_id l.quantity l.price)
            = exTagInput.order_lines.map
                (fun l => OrderLineRead.mk l.product_id l.quantity l.price)) ∧
        (db'.order_line.filter (fun l => l.order_id == exTagStore.nextOrderId)).map
            (fun l => OrderLineRead.mk l.product_id l.quantity l.price)
          = exTagInput.order_lines.map (fun l => OrderLineRead.mk l.product_id l.quantity l.price) ∧
        (db'.order_line.filter (fun l => l.order_id == exTagStore.nextOrderId)).length
          = exTagInput.order_lines.length ∧
        db'.order_line.length = exTagStore.order_line.length + exTagInput.order_lines.length) :=
  ⟨by decide, create_order_lines_in_input_order exTagStore exTagInput (by decide)⟩

/-- Witness for C3 on `exTagStore`/`exTagInput`. -/
theorem create_order_tags_filtered_witness :
    exTagStore.WF ∧
      (∃ o db', Sync.create_order none exTagStore exTagInput = (Except.ok o, db') ∧
        o.id = exTagStore.nextOrderId ∧
        (db'.order_tag_rel.filter (fun k => k.order_id == exTagStore.nextOrderId)).map
            (fun k => k.tag_id)
          = exTagInput.tag_ids.filter (fun t => (exTagStore.tagById t).isSome) ∧
        ((db'.order_tag_rel.filter (fun k => k.order_id == exTagStore.nextOrderId)).filterMap
            (fun k => db'.tagById k.tag_id)).map (fun tg => tg.id)
          = exTagInput.tag_ids.filter (fun t => (exTagStore.tagById t).isSome) ∧
        db'.order_tag_rel.length
          = exTagStore.order_tag_rel.length
            + (exTagInput.tag_ids.filter (fun t => (exTagStore.tagById t).isSome)).length) :=
  ⟨by decide, create_order_tags_filtered exTagStore exTagInput (by decide)⟩

/-- C6.  The claim (and spec section 4.3 step 5 / section 6) asserts that a
successful POST /order returns the full aggregate — order fields plus
materialized `order_lines` and `tags`.  The code does not: the route
declares no `response_model`, SQLModel `Relationship()` attributes are not
model fields and are excluded from the response, and `session.refresh` does
not populate never-loaded relationships (the async variant could not even
lazy-load them afterwards).  Concretely, creating `exTagInput` (one line,
tag ids [1, 999, 1]) on `exTagStore` commits one line row and two tag-link
rows, yet the value returned to the caller is the bare order row
`{id := 1, name := "B", contact_id := 1}` with no collections at all. -/
theorem create_order_response_lacks_relations :
    (Sync.create_order none exTagStore exTagInput).1
        = Except.ok (OrderDB.mk 1 "B" 1) ∧
      (Sync.create_order none exTagStore exTagInput).2.order_line.length = 1 ∧
      (Sync.create_order none exTagStore exTagInput).2.order_tag_rel.length = 2 :=
  ⟨rfl, rfl, rfl⟩

/-- Witness for C10 on `exTagStore`/`exTagInput`: tag id 1 appears twice in
the request, resolves, and yields two link rows. -/
theorem create_order_duplicate_tag_links_witness :
    exTagStore.WF ∧ (exTagStore.tagById 1).isSome = true ∧
      ((Sync.create_order none exTagStore exTagInput).2.order_tag_rel.filter
          (fun k => k.order_id == exTagStore.nextOrderId && k.tag_id == 1)).length
        = exTagInput.tag_ids.count 1 :=
  ⟨by decide, by decide,
    create_order_duplicate_tag_links exTagStore exTagInput 1 (by decide) (by decide)⟩

/-- Store for the spec's concrete scenario: contact 1 and products 1 and 2
exist, no orders yet. -/
def exScenarioStore : Store :=
  { contact := [⟨1, "c", "c@x"⟩], product := [⟨1, "p1"⟩, ⟨2, "p2"⟩], tag := [],
    order := [], order_line := [], order_tag_rel := [],
    nextContactId := 2, nextProductId := 3, nextTagId := 1,
    nextOrderId := 1, nextOrderLineId := 1, nextOrderTagRelId := 1 }

/-- The spec's concrete order-create payload: name "A", contact 1, lines
(product 1, qty 2, price 10.0) and (product 2, qty 1, price 5.5), no tags. -/
def exScenarioInput : OrderCreate :=
  { name := "A", contact_id := 1,
    order_lines := [⟨1, 2, 10⟩, ⟨2, 1, (5.5 : ℚ)⟩], tag_ids := [] }

/-- C8.  Creating the spec's concrete order and reading it back yields a
single order whose `amount_total` is exactly 25.5. -/
theorem create_order_concrete_amount_total :
    (Sync.get_orders (Sync.create_order none exScenarioStore exScenarioInput).2).1.map
        OrderRead.amount_total = [(25.5 : ℚ)] := by
  have h : (Sync.get_orders (Sync.create_order none exScenarioStore exScenarioInput).2).1
      = [⟨1, "A", 1, [⟨1, 2, 10⟩, ⟨2, 1, (5.5 : ℚ)⟩], []⟩] := rfl
  rw [h, List.map_cons, List.map_nil]
  norm_num [OrderRead.amount_total, List.map_cons, List.map_nil, List.sum_cons,
    List.sum_nil, round_eq]
